import Mathlib

/-!
Verification of the deployment-configuration registry of mars-core
(src/scripts/deploy_configs.ts).

The source file is three exported `Config` literals, one per environment
(`testnet`, `bombay`, `local`).  The data model below is a direct
transcription of those literals: TypeScript string fields stay `String`
(decimal strings are parsed to exact rationals only inside the invariant
checkers), integer fields become `Nat`, and `undefined`-able fields become
`Option`.
-/

namespace DeployConfigs

structure CouncilConfig where
  address_provider_address : Option String
  proposal_voting_period : Nat
  proposal_effective_delay : Nat
  proposal_expiration_period : Nat
  proposal_required_deposit : String
  proposal_required_quorum : String
  proposal_required_threshold : String

structure CouncilInitMsg where
  config : CouncilConfig

structure StakingConfig where
  owner : Option String
  address_provider_address : Option String
  astroport_factory_address : Option String
  astroport_max_spread : String
  cooldown_duration : Nat
  unstake_window : Nat

structure StakingInitMsg where
  config : StakingConfig

structure FundInitMsg where
  owner : Option String
  astroport_factory_address : Option String
  astroport_max_spread : String

structure RewardsCollectorConfig where
  owner : Option String
  address_provider_address : Option String
  safety_fund_fee_share : String
  treasury_fee_share : String
  astroport_factory_address : Option String
  astroport_max_spread : String

structure RewardsCollectorInitMsg where
  config : RewardsCollectorConfig

structure RedBankConfig where
  owner : Option String
  address_provider_address : Option String
  ma_token_code_id : Option Nat
  close_factor : String

structure RedBankInitMsg where
  config : RedBankConfig

structure DynamicInterestRate where
  min_borrow_rate : String
  max_borrow_rate : String
  kp_1 : String
  optimal_utilization_rate : String
  kp_augmentation_threshold : String
  kp_2 : String

inductive InterestRateStrategy where
  | dynamic (d : DynamicInterestRate)

structure AssetInitParams where
  initial_borrow_rate : String
  max_loan_to_value : String
  reserve_factor : String
  liquidation_threshold : String
  liquidation_bonus : String
  interest_rate_strategy : InterestRateStrategy
  active : Bool
  deposit_enabled : Bool
  borrow_enabled : Bool

structure AssetInitEntry where
  denom : Option String
  symbol : Option String
  contract_addr : Option String
  init_params : AssetInitParams

structure Config where
  councilInitMsg : CouncilInitMsg
  stakingInitMsg : StakingInitMsg
  safetyFundInitMsg : FundInitMsg
  treasuryInitMsg : FundInitMsg
  protocolRewardsCollectorInitMsg : RewardsCollectorInitMsg
  redBankInitMsg : RedBankInitMsg
  initialAssets : List AssetInitEntry
  mirFarmingStratContractAddress : Option String
  ancFarmingStratContractAddress : Option String
  marsFarmingStratContractAddress : Option String
  minterProxyContractAddress : Option String
  marsTokenContractAddress : Option String
  oracleFactoryAddress : Option String

/-- testnet initialAssets[0] (deploy_configs.ts lines 54-76). -/
def testnetUusd : AssetInitEntry :=
  { denom := some "uusd", symbol := none, contract_addr := none,
    init_params := {
      initial_borrow_rate := "0.2",
      max_loan_to_value := "0.75",
      reserve_factor := "0.2",
      liquidation_threshold := "0.85",
      liquidation_bonus := "0.1",
      interest_rate_strategy := InterestRateStrategy.dynamic {
        min_borrow_rate := "0.0",
        max_borrow_rate := "1.0",
        kp_1 := "0.04",
        optimal_utilization_rate := "0.9",
        kp_augmentation_threshold := "0.15",
        kp_2 := "0.07" },
      active := true, deposit_enabled := true, borrow_enabled := true } }

/-- Transcription of `export const testnet: Config` (deploy_configs.ts lines 1-179). -/
def testnet : Config := {
  councilInitMsg := { config := {
    address_provider_address := none,
    proposal_voting_period := 20,
    proposal_effective_delay := 0,
    proposal_expiration_period := 115200,
    proposal_required_deposit := "100000000",
    proposal_required_quorum := "0.1",
    proposal_required_threshold := "0.5" } },
  stakingInitMsg := { config := {
    owner := none,
    address_provider_address := none,
    astroport_factory_address := some "terra18qpjm4zkvqnpjpw0zn0tdr8gdzvt8au35v45xf",
    astroport_max_spread := "0.05",
    cooldown_duration := 90,
    unstake_window := 300 } },
  safetyFundInitMsg := {
    owner := none,
    astroport_factory_address := some "terra18qpjm4zkvqnpjpw0zn0tdr8gdzvt8au35v45xf",
    astroport_max_spread := "0.05" },
  treasuryInitMsg := {
    owner := none,
    astroport_factory_address := some "terra18qpjm4zkvqnpjpw0zn0tdr8gdzvt8au35v45xf",
    astroport_max_spread := "0.05" },
  protocolRewardsCollectorInitMsg := { config := {
    owner := none,
    address_provider_address := none,
    safety_fund_fee_share := "0.1",
    treasury_fee_share := "0.2",
    astroport_factory_address := some "terra18qpjm4zkvqnpjpw0zn0tdr8gdzvt8au35v45xf",
    astroport_max_spread := "0.05" } },
  redBankInitMsg := { config := {
    owner := none,
    address_provider_address := none,
    ma_token_code_id := none,
    close_factor := "0.5" } },
  initialAssets := [
    testnetUusd,
    { denom := some "uluna", symbol := none, contract_addr := none,
      init_params := {
        initial_borrow_rate := "0.1",
        max_loan_to_value := "0.55",
        reserve_factor := "0.2",
        liquidation_threshold := "0.65",
        liquidation_bonus := "0.1",
        interest_rate_strategy := InterestRateStrategy.dynamic {
          min_borrow_rate := "0.0",
          max_borrow_rate := "2.0",
          kp_1 := "0.02",
          optimal_utilization_rate := "0.7",
          kp_augmentation_threshold := "0.15",
          kp_2 := "0.05" },
        active := true, deposit_enabled := true, borrow_enabled := true } },
    { denom := none, symbol := some "MIR",
      contract_addr := some "terra10llyp6v3j3her8u3ce66ragytu45kcmd9asj3u",
      init_params := {
        initial_borrow_rate := "0.07",
        max_loan_to_value := "0.45",
        reserve_factor := "0.2",
        liquidation_threshold := "0.55",
        liquidation_bonus := "0.15",
        interest_rate_strategy := InterestRateStrategy.dynamic {
          min_borrow_rate := "0.0",
          max_borrow_rate := "2.0",
          kp_1 := "0.02",
          optimal_utilization_rate := "0.5",
          kp_augmentation_threshold := "0.15",
          kp_2 := "0.05" },
        active := true, deposit_enabled := true, borrow_enabled := true } },
    { denom := none, symbol := some "ANC",
      contract_addr := some "terra1747mad58h0w4y589y3sk84r5efqdev9q4r02pc",
      init_params := {
        initial_borrow_rate := "0.07",
        max_loan_to_value := "0.35",
        reserve_factor := "0.2",
        liquidation_threshold := "0.45",
        liquidation_bonus := "0.15",
        interest_rate_strategy := InterestRateStrategy.dynamic {
          min_borrow_rate := "0.0",
          max_borrow_rate := "2.0",
          kp_1 := "0.02",
          optimal_utilization_rate := "0.5",
          kp_augmentation_threshold := "0.15",
          kp_2 := "0.05" },
        active := true, deposit_enabled := true, borrow_enabled := true } },
    { denom := none, symbol := some "MARS", contract_addr := none,
      init_params := {
        initial_borrow_rate := "0.07",
        max_loan_to_value := "0.45",
        reserve_factor := "0.2",
        liquidation_threshold := "0.55",
        liquidation_bonus := "0.15",
        interest_rate_strategy := InterestRateStrategy.dynamic {
          min_borrow_rate := "0.0",
          max_borrow_rate := "2.0",
          kp_1 := "0.02",
          optimal_utilization_rate := "0.5",
          kp_augmentation_threshold := "0.15",
          kp_2 := "0.05" },
        active := true, deposit_enabled := true, borrow_enabled := true } } ],
  mirFarmingStratContractAddress := none,
  ancFarmingStratContractAddress := none,
  marsFarmingStratContractAddress := none,
  minterProxyContractAddress := none,
  marsTokenContractAddress := none,
  oracleFactoryAddress := some "terra18qpjm4zkvqnpjpw0zn0tdr8gdzvt8au35v45xf"
}

/-- Transcription of `export const bombay: Config` (deploy_configs.ts lines 181-359).
The ANC entry there is commented out in the source, so bombay has four assets. -/
def bombay : Config := {
  councilInitMsg := { config := {
    address_provider_address := none,
    proposal_voting_period := 20,
    proposal_effective_delay := 0,
    proposal_expiration_period := 115200,
    proposal_required_deposit := "100000000",
    proposal_required_quorum := "0.1",
    proposal_required_threshold := "0.5" } },
  stakingInitMsg := { config := {
    owner := none,
    address_provider_address := none,
    astroport_factory_address := some "terra18qpjm4zkvqnpjpw0zn0tdr8gdzvt8au35v45xf",
    astroport_max_spread := "0.05",
    cooldown_duration := 90,
    unstake_window := 300 } },
  safetyFundInitMsg := {
    owner := none,
    astroport_factory_address := some "terra18qpjm4zkvqnpjpw0zn0tdr8gdzvt8au35v45xf",
    astroport_max_spread := "0.05" },
  treasuryInitMsg := {
    owner := none,
    astroport_factory_address := some "terra18qpjm4zkvqnpjpw0zn0tdr8gdzvt8au35v45xf",
    astroport_max_spread := "0.05" },
  protocolRewardsCollectorInitMsg := { config := {
    owner := none,
    address_provider_address := none,
    safety_fund_fee_share := "0.1",
    treasury_fee_share := "0.2",
    astroport_factory_address := some "terra18qpjm4zkvqnpjpw0zn0tdr8gdzvt8au35v45xf",
    astroport_max_spread := "0.05" } },
  redBankInitMsg := { config := {
    owner := none,
    address_provider_address := none,
    ma_token_code_id := none,
    close_factor := "0.5" } },
  initialAssets := [
    { denom := some "uusd", symbol := none, contract_addr := none,
      init_params := {
        initial_borrow_rate := "0.2",
        max_loan_to_value := "0.75",
        reserve_factor := "0.2",
        liquidation_threshold := "0.85",
        liquidation_bonus := "0.1",
        interest_rate_strategy := InterestRateStrategy.dynamic {
          min_borrow_rate := "0.0",
          max_borrow_rate := "1.0",
          kp_1 := "0.04",
          optimal_utilization_rate := "0.9",
          kp_augmentation_threshold := "0.15",
          kp_2 := "0.07" },
        active := true, deposit_enabled := true, borrow_enabled := true } },
    { denom := some "uluna", symbol := none, contract_addr := none,
      init_params := {
        initial_borrow_rate := "0.1",
        max_loan_to_value := "0.55",
        reserve_factor := "0.2",
        liquidation_threshold := "0.65",
        liquidation_bonus := "0.1",
        interest_rate_strategy := InterestRateStrategy.dynamic {
          min_borrow_rate := "0.0",
          max_borrow_rate := "2.0",
          kp_1 := "0.02",
          optimal_utilization_rate := "0.7",
          kp_augmentation_threshold := "0.15",
          kp_2 := "0.05" },
        active := true, deposit_enabled := true, borrow_enabled := true } },
    { denom := none, symbol := some "MIR",
      contract_addr := some "terra10llyp6v3j3her8u3ce66ragytu45kcmd9asj3u",
      init_params := {
        initial_borrow_rate := "0.07",
        max_loan_to_value := "0.45",
        reserve_factor := "0.2",
        liquidation_threshold := "0.55",
        liquidation_bonus := "0.15",
        interest_rate_strategy := InterestRateStrategy.dynamic {
          min_borrow_rate := "0.0",
          max_borrow_rate := "2.0",
          kp_1 := "0.02",
          optimal_utilization_rate := "0.5",
          kp_augmentation_threshold := "0.15",
          kp_2 := "0.05" },
        active := true, deposit_enabled := true, borrow_enabled := true } },
    { denom := none, symbol := some "MARS",
      contract_addr := some "terra1qs7h830ud0a4hj72yr8f7jmlppyx7z524f7gw6",
      init_params := {
        initial_borrow_rate := "0.07",
        max_loan_to_value := "0.45",
        reserve_factor := "0.2",
        liquidation_threshold := "0.55",
        liquidation_bonus := "0.15",
        interest_rate_strategy := InterestRateStrategy.dynamic {
          min_borrow_rate := "0.0",
          max_borrow_rate := "2.0",
          kp_1 := "0.02",
          optimal_utilization_rate := "0.5",
          kp_augmentation_threshold := "0.15",
          kp_2 := "0.05" },
        active := true, deposit_enabled := true, borrow_enabled := true } } ],
  mirFarmingStratContractAddress := none,
  ancFarmingStratContractAddress := none,
  marsFarmingStratContractAddress := none,
  minterProxyContractAddress := some "terra1hfyg0tvuqd5kk4un4luqng2adc88lgt5skxmve",
  marsTokenContractAddress := some "terra1qs7h830ud0a4hj72yr8f7jmlppyx7z524f7gw6",
  oracleFactoryAddress := some "terra18qpjm4zkvqnpjpw0zn0tdr8gdzvt8au35v45xf"
}

/-- Transcription of `export const local: Config` (deploy_configs.ts lines 361-419);
`local` is a Lean keyword, hence the quoted identifier. -/
def «local» : Config := {
  councilInitMsg := { config := {
    address_provider_address := none,
    proposal_voting_period := 1000,
    proposal_effective_delay := 150,
    proposal_expiration_period := 3000,
    proposal_required_deposit := "100000000",
    proposal_required_quorum := "0.1",
    proposal_required_threshold := "0.5" } },
  stakingInitMsg := { config := {
    owner := none,
    address_provider_address := none,
    astroport_factory_address := none,
    astroport_max_spread := "0.05",
    cooldown_duration := 10,
    unstake_window := 300 } },
  safetyFundInitMsg := {
    owner := none,
    astroport_factory_address := none,
    astroport_max_spread := "0.05" },
  treasuryInitMsg := {
    owner := none,
    astroport_factory_address := some "terra18qpjm4zkvqnpjpw0zn0tdr8gdzvt8au35v45xf",
    astroport_max_spread := "0.05" },
  protocolRewardsCollectorInitMsg := { config := {
    owner := none,
    address_provider_address := none,
    safety_fund_fee_share := "0.1",
    treasury_fee_share := "0.2",
    astroport_factory_address := none,
    astroport_max_spread := "0.05" } },
  redBankInitMsg := { config := {
    owner := none,
    address_provider_address := none,
    ma_token_code_id := none,
    close_factor := "0.5" } },
  initialAssets := [],
  mirFarmingStratContractAddress := none,
  ancFarmingStratContractAddress := none,
  marsFarmingStratContractAddress := none,
  minterProxyContractAddress := none,
  marsTokenContractAddress := none,
  oracleFactoryAddress := none
}

/-- One of the digit characters 0-9. -/
def isDigitChar (c : Char) : Bool := 48 ≤ c.toNat && c.toNat ≤ 57

/-- Value of a digit string read left to right. -/
def digitsToNat (cs : List Char) : Nat := cs.foldl (fun a c => a * 10 + (c.toNat - 48)) 0

/-- Split at the first dot: whole part and fractional part (empty when no dot). -/
def splitDot : List Char → List Char × List Char
  | [] => ([], [])
  | c :: cs =>
      if c = '.' then ([], cs)
      else
        let p := splitDot cs
        (c :: p.1, p.2)

/-- An exact decimal value: numerator and (positive) power-of-ten denominator.
Kept unreduced so every operation is plain Nat arithmetic; `toRat` gives the
rational it denotes. -/
abbrev DecFrac := Nat × Nat

/-- The rational denoted by a DecFrac. -/
def toRat (p : DecFrac) : ℚ := (p.1 : ℚ) / (p.2 : ℚ)

/-- Build an exact fraction from split whole and fractional digit parts: the
whole part must be a nonempty digit string and the fractional part all digits. -/
def mkDec (p : List Char × List Char) : Option DecFrac :=
  if !p.1.isEmpty && (p.1 ++ p.2).all isDigitChar then
    some (digitsToNat p.1 * 10 ^ p.2.length + digitsToNat p.2, 10 ^ p.2.length)
  else none

/-- Parse a decimal string such as "0.75" to an exact fraction 75/100
(a second dot makes the parse fail). -/
def parseDec (s : String) : Option DecFrac := mkDec (splitDot s.data)

/-- Exact comparison of two fractions by cross multiplication. -/
def qle (a b : DecFrac) : Bool := decide (a.1 * b.2 ≤ b.1 * a.2)

/-- Exact strict comparison of two fractions by cross multiplication. -/
def qlt (a b : DecFrac) : Bool := decide (a.1 * b.2 < b.1 * a.2)

/-- Exact sum of two fractions. -/
def addDec (a b : DecFrac) : DecFrac := (a.1 * b.2 + b.1 * a.2, a.2 * b.2)

/-- The fraction 0. -/
def zeroDec : DecFrac := (0, 1)

/-- The fraction 1. -/
def oneDec : DecFrac := (1, 1)

/-- The registered environment identifiers. -/
def registeredEnvs : List String := ["testnet", "bombay", "local"]

/-- The registered environments' configurations, in registry order. -/
def registeredConfigs : List Config := [testnet, bombay, «local»]

inductive ConfigError where
  | UnknownEnvironment
deriving DecidableEq

/-- Modelled from the spec: the source file exports only the three `Config`
literals and the registry lookup itself is not in src, so `getConfig` follows
spec section 4.1 — a pure lookup from environment identifier to `Config`,
failing with `UnknownEnvironment` for any identifier outside the registered
set (testnet, bombay, local). -/
def getConfig (e : String) : Except ConfigError Config :=
  if e = "testnet" then Except.ok testnet
  else if e = "bombay" then Except.ok bombay
  else if e = "local" then Except.ok «local»
  else Except.error ConfigError.UnknownEnvironment

/-- max_loan_to_value < liquidation_threshold < 1, both fields parsed as exact
rationals; false when either fails to parse. -/
def assetLtvOk (a : AssetInitEntry) : Bool :=
  match parseDec a.init_params.max_loan_to_value,
        parseDec a.init_params.liquidation_threshold with
  | some m, some l => qlt m l && qlt l oneDec
  | _, _ => false

/-- Interest-rate-strategy invariants: min_borrow_rate ≤ max_borrow_rate,
optimal_utilization_rate strictly between 0 and 1, and the gains and the
augmentation threshold nonnegative. -/
def strategyOk : InterestRateStrategy → Bool
  | InterestRateStrategy.dynamic d =>
    match parseDec d.min_borrow_rate, parseDec d.max_borrow_rate,
          parseDec d.optimal_utilization_rate, parseDec d.kp_1,
          parseDec d.kp_2, parseDec d.kp_augmentation_threshold with
    | some mn, some mx, some ou, some k1, some k2, some ka =>
        qle mn mx && qlt zeroDec ou && qlt ou oneDec &&
        qle zeroDec k1 && qle zeroDec k2 && qle zeroDec ka
    | _, _, _, _, _, _ => false

/-- Per-asset risk-parameter invariants: reserve_factor in [0,1) and
liquidation_bonus ≥ 0. -/
def riskOk (a : AssetInitEntry) : Bool :=
  match parseDec a.init_params.reserve_factor,
        parseDec a.init_params.liquidation_bonus with
  | some rf, some lb => qle zeroDec rf && qlt rf oneDec && qle zeroDec lb
  | _, _ => false

/-- Rewards-collector invariants: both fee shares in [0,1] and their sum ≤ 1. -/
def rewardsOk (c : Config) : Bool :=
  match parseDec c.protocolRewardsCollectorInitMsg.config.safety_fund_fee_share,
        parseDec c.protocolRewardsCollectorInitMsg.config.treasury_fee_share with
  | some s, some t =>
      qle zeroDec s && qle s oneDec && qle zeroDec t && qle t oneDec &&
      qle (addDec s t) oneDec
  | _, _ => false

/-- Governance invariants: effective delay strictly below expiration period,
quorum and threshold in [0,1]. -/
def councilOk (c : Config) : Bool :=
  decide (c.councilInitMsg.config.proposal_effective_delay <
          c.councilInitMsg.config.proposal_expiration_period) &&
  (match parseDec c.councilInitMsg.config.proposal_required_quorum,
         parseDec c.councilInitMsg.config.proposal_required_threshold with
   | some q, some t => qle zeroDec q && qle q oneDec && qle zeroDec t && qle t oneDec
   | _, _ => false)

/-- Staking invariant flagged by the spec as unenforced: cooldown_duration ≤
unstake_window. -/
def stakingOk (c : Config) : Bool :=
  decide (c.stakingInitMsg.config.cooldown_duration ≤
          c.stakingInitMsg.config.unstake_window)

/-- A per-config check holds in the config of every registered environment,
looked up through getConfig. -/
def allEnvs (p : Config → Bool) : Bool :=
  registeredEnvs.all (fun e =>
    match getConfig e with
    | Except.ok c => p c
    | Except.error _ => false)

/-- One (fieldPath, violation) entry when a parsed decimal fails a predicate. -/
def checkQ (path : String) (s : String) (p : DecFrac → Bool) : List (String × String) :=
  match parseDec s with
  | none => [(path, "malformed decimal")]
  | some q => if p q then [] else [(path, "invariant violated")]

/-- One (fieldPath, violation) entry when a boolean condition fails. -/
def checkB (path : String) (ok : Bool) : List (String × String) :=
  if ok then [] else [(path, "invariant violated")]

/-- Field path of an asset risk parameter, e.g. initialAssets[0].init_params.f. -/
def assetPath (i : Nat) (f : String) : String :=
  "initialAssets[" ++ toString i ++ "].init_params." ++ f

/-- Field path of a dynamic interest-rate-strategy parameter of asset i. -/
def stratPath (i : Nat) (f : String) : String :=
  assetPath i ("interest_rate_strategy.dynamic." ++ f)

/-- Violations of one asset entry at index i: the AssetRiskParams ranges of
spec section 3, the cross-field max_loan_to_value < liquidation_threshold,
and the InterestRateStrategy invariants. -/
def validateAsset (i : Nat) (a : AssetInitEntry) : List (String × String) :=
  checkQ (assetPath i "initial_borrow_rate") a.init_params.initial_borrow_rate
    (fun q => qle zeroDec q) ++
  checkQ (assetPath i "max_loan_to_value") a.init_params.max_loan_to_value
    (fun q => qlt zeroDec q && qlt q oneDec) ++
  checkQ (assetPath i "reserve_factor") a.init_params.reserve_factor
    (fun q => qle zeroDec q && qlt q oneDec) ++
  checkQ (assetPath i "liquidation_threshold") a.init_params.liquidation_threshold
    (fun q => qlt zeroDec q && qlt q oneDec) ++
  checkQ (assetPath i "liquidation_bonus") a.init_params.liquidation_bonus
    (fun q => qle zeroDec q) ++
  checkB (assetPath i "liquidation_threshold") (assetLtvOk a) ++
  (match a.init_params.interest_rate_strategy with
   | InterestRateStrategy.dynamic d =>
     checkB (stratPath i "max_borrow_rate")
       (match parseDec d.min_borrow_rate, parseDec d.max_borrow_rate with
        | some mn, some mx => qle mn mx
        | _, _ => false) ++
     checkQ (stratPath i "optimal_utilization_rate") d.optimal_utilization_rate
       (fun q => qlt zeroDec q && qlt q oneDec) ++
     checkQ (stratPath i "kp_1") d.kp_1 (fun q => qle zeroDec q) ++
     checkQ (stratPath i "kp_2") d.kp_2 (fun q => qle zeroDec q) ++
     checkQ (stratPath i "kp_augmentation_threshold") d.kp_augmentation_threshold
       (fun q => qle zeroDec q))

/-- Violations of the asset list, indexed from i. -/
def validateAssets : Nat → List AssetInitEntry → List (String × String)
  | _, [] => []
  | i, a :: rest => validateAsset i a ++ validateAssets (i + 1) rest

/-- Modelled from the spec: the schema validator of spec section 4.2 is not in
src, so `validate` walks every sub-record and every asset entry, checking the
invariants of spec section 3, and returns the ordered list of
(fieldPath, violation) pairs — empty means success.  An unparsable decimal is
reported as a "malformed decimal" entry at its field path. -/
def validate (c : Config) : List (String × String) :=
  checkB "councilInitMsg.config.proposal_effective_delay"
    (decide (c.councilInitMsg.config.proposal_effective_delay <
             c.councilInitMsg.config.proposal_expiration_period)) ++
  checkQ "councilInitMsg.config.proposal_required_quorum"
    c.councilInitMsg.config.proposal_required_quorum
    (fun q => qle zeroDec q && qle q oneDec) ++
  checkQ "councilInitMsg.config.proposal_required_threshold"
    c.councilInitMsg.config.proposal_required_threshold
    (fun q => qle zeroDec q && qle q oneDec) ++
  checkQ "protocolRewardsCollectorInitMsg.config.safety_fund_fee_share"
    c.protocolRewardsCollectorInitMsg.config.safety_fund_fee_share
    (fun q => qle zeroDec q && qle q oneDec) ++
  checkQ "protocolRewardsCollectorInitMsg.config.treasury_fee_share"
    c.protocolRewardsCollectorInitMsg.config.treasury_fee_share
    (fun q => qle zeroDec q && qle q oneDec) ++
  checkB "protocolRewardsCollectorInitMsg.config" (rewardsOk c) ++
  checkQ "redBankInitMsg.config.close_factor"
    c.redBankInitMsg.config.close_factor
    (fun q => qlt zeroDec q && qle q oneDec) ++
  validateAssets 0 c.initialAssets

/-- The configuration with the first asset entry's liquidation_threshold
replaced — the mutation of spec section 8's example. -/
def mutateFirstLiqThreshold (c : Config) (v : String) : Config :=
  { c with initialAssets :=
      match c.initialAssets with
      | [] => []
      | a :: rest =>
          { a with init_params := { a.init_params with liquidation_threshold := v } } :: rest }

theorem toRat_zeroDec : toRat zeroDec = 0 := by norm_num [toRat, zeroDec]

theorem toRat_oneDec : toRat oneDec = 1 := by norm_num [toRat, oneDec]

theorem zeroDec_den_pos : 0 < zeroDec.2 := by norm_num [zeroDec]

theorem oneDec_den_pos : 0 < oneDec.2 := by norm_num [oneDec]

theorem mkDec_den_pos (w : List Char × List Char) (p : DecFrac)
    (h : mkDec w = some p) : 0 < p.2 := by
  unfold mkDec at h
  split at h
  · cases h
    positivity
  · cases h

theorem parseDec_den_pos (s : String) (p : DecFrac) (h : parseDec s = some p) :
    0 < p.2 :=
  mkDec_den_pos _ p h

theorem qle_iff_toRat (a b : DecFrac) (ha : 0 < a.2) (hb : 0 < b.2) :
    qle a b = true ↔ toRat a ≤ toRat b := by
  unfold qle toRat
  have ha' : (0 : ℚ) < a.2 := by exact_mod_cast ha
  have hb' : (0 : ℚ) < b.2 := by exact_mod_cast hb
  rw [decide_eq_true_eq, div_le_div_iff₀ ha' hb']
  constructor <;> intro h <;> exact_mod_cast h

theorem qlt_iff_toRat (a b : DecFrac) (ha : 0 < a.2) (hb : 0 < b.2) :
    qlt a b = true ↔ toRat a < toRat b := by
  unfold qlt toRat
  have ha' : (0 : ℚ) < a.2 := by exact_mod_cast ha
  have hb' : (0 : ℚ) < b.2 := by exact_mod_cast hb
  rw [decide_eq_true_eq, div_lt_div_iff₀ ha' hb']
  constructor <;> intro h <;> exact_mod_cast h

theorem addDec_den_pos (a b : DecFrac) (ha : 0 < a.2) (hb : 0 < b.2) :
    0 < (addDec a b).2 := Nat.mul_pos ha hb

theorem toRat_addDec (a b : DecFrac) (ha : 0 < a.2) (hb : 0 < b.2) :
    toRat (addDec a b) = toRat a + toRat b := by
  unfold addDec toRat
  have ha' : (a.2 : ℚ) ≠ 0 := by exact_mod_cast Nat.pos_iff_ne_zero.mp ha
  have hb' : (b.2 : ℚ) ≠ 0 := by exact_mod_cast Nat.pos_iff_ne_zero.mp hb
  push_cast
  field_simp

/-- The rational reading of the max_loan_to_value < liquidation_threshold < 1
invariant: both fields parse and the denoted rationals are so ordered. -/
def ltvProp (a : AssetInitEntry) : Prop :=
  match parseDec a.init_params.max_loan_to_value,
        parseDec a.init_params.liquidation_threshold with
  | some m, some l => toRat m < toRat l ∧ toRat l < 1
  | _, _ => False

/-- The rational reading of the interest-rate-strategy invariants. -/
def strategyProp : InterestRateStrategy → Prop
  | InterestRateStrategy.dynamic d =>
    match parseDec d.min_borrow_rate, parseDec d.max_borrow_rate,
          parseDec d.optimal_utilization_rate, parseDec d.kp_1,
          parseDec d.kp_2, parseDec d.kp_augmentation_threshold with
    | some mn, some mx, some ou, some k1, some k2, some ka =>
        toRat mn ≤ toRat mx ∧ 0 < toRat ou ∧ toRat ou < 1 ∧
        0 ≤ toRat k1 ∧ 0 ≤ toRat k2 ∧ 0 ≤ toRat ka
    | _, _, _, _, _, _ => False

/-- The rational reading of the risk-parameter invariants: reserve_factor in
[0,1) and liquidation_bonus ≥ 0. -/
def riskProp (a : AssetInitEntry) : Prop :=
  match parseDec a.init_params.reserve_factor,
        parseDec a.init_params.liquidation_bonus with
  | some rf, some lb => 0 ≤ toRat rf ∧ toRat rf < 1 ∧ 0 ≤ toRat lb
  | _, _ => False

/-- The rational reading of the rewards-collector fee-share invariants. -/
def rewardsProp (c : Config) : Prop :=
  match parseDec c.protocolRewardsCollectorInitMsg.config.safety_fund_fee_share,
        parseDec c.protocolRewardsCollectorInitMsg.config.treasury_fee_share with
  | some s, some t =>
      0 ≤ toRat s ∧ toRat s ≤ 1 ∧ 0 ≤ toRat t ∧ toRat t ≤ 1 ∧
      toRat s + toRat t ≤ 1
  | _, _ => False

/-- The governance invariants: effective delay strictly below expiration
period, quorum and threshold in [0,1] as rationals. -/
def councilProp (c : Config) : Prop :=
  c.councilInitMsg.config.proposal_effective_delay <
    c.councilInitMsg.config.proposal_expiration_period ∧
  match parseDec c.councilInitMsg.config.proposal_required_quorum,
        parseDec c.councilInitMsg.config.proposal_required_threshold with
  | some q, some t => 0 ≤ toRat q ∧ toRat q ≤ 1 ∧ 0 ≤ toRat t ∧ toRat t ≤ 1
  | _, _ => False

theorem ltvProp_of_ok (a : AssetInitEntry) (h : assetLtvOk a = true) :
    ltvProp a := by
  unfold assetLtvOk at h
  unfold ltvProp
  cases hm : parseDec a.init_params.max_loan_to_value with
  | none => rw [hm] at h; simp at h
  | some m =>
    cases hl : parseDec a.init_params.liquidation_threshold with
    | none => rw [hm, hl] at h; simp at h
    | some l =>
      rw [hm, hl] at h
      simp only [Bool.and_eq_true] at h
      have hm2 := parseDec_den_pos _ _ hm
      have hl2 := parseDec_den_pos _ _ hl
      simp only [hm, hl]
      refine ⟨(qlt_iff_toRat m l hm2 hl2).mp h.1, ?_⟩
      have := (qlt_iff_toRat l oneDec hl2 oneDec_den_pos).mp h.2
      rwa [toRat_oneDec] at this

theorem strategyProp_of_ok (s : InterestRateStrategy) (h : strategyOk s = true) :
    strategyProp s := by
  obtain ⟨d⟩ := s
  simp only [strategyOk] at h
  simp only [strategyProp]
  cases h1 : parseDec d.min_borrow_rate with
  | none => rw [h1] at h; simp at h
  | some mn =>
  cases h2 : parseDec d.max_borrow_rate with
  | none => rw [h1, h2] at h; simp at h
  | some mx =>
  cases h3 : parseDec d.optimal_utilization_rate with
  | none => rw [h1, h2, h3] at h; simp at h
  | some ou =>
  cases h4 : parseDec d.kp_1 with
  | none => rw [h1, h2, h3, h4] at h; simp at h
  | some k1 =>
  cases h5 : parseDec d.kp_2 with
  | none => rw [h1, h2, h3, h4, h5] at h; simp at h
  | some k2 =>
  cases h6 : parseDec d.kp_augmentation_threshold with
  | none => rw [h1, h2, h3, h4, h5, h6] at h; simp at h
  | some ka =>
  rw [h1, h2, h3, h4, h5, h6] at h
  simp only [Bool.and_eq_true] at h
  obtain ⟨⟨⟨⟨⟨ha, hb⟩, hc⟩, hd⟩, he⟩, hf⟩ := h
  have p1 := parseDec_den_pos _ _ h1
  have p2 := parseDec_den_pos _ _ h2
  have p3 := parseDec_den_pos _ _ h3
  have p4 := parseDec_den_pos _ _ h4
  have p5 := parseDec_den_pos _ _ h5
  have p6 := parseDec_den_pos _ _ h6
  simp only [h1, h2, h3, h4, h5, h6]
  refine ⟨(qle_iff_toRat mn mx p1 p2).mp ha, ?_, ?_, ?_, ?_, ?_⟩
  · have := (qlt_iff_toRat zeroDec ou zeroDec_den_pos p3).mp hb
    rwa [toRat_zeroDec] at this
  · have := (qlt_iff_toRat ou oneDec p3 oneDec_den_pos).mp hc
    rwa [toRat_oneDec] at this
  · have := (qle_iff_toRat zeroDec k1 zeroDec_den_pos p4).mp hd
    rwa [toRat_zeroDec] at this
  · have := (qle_iff_toRat zeroDec k2 zeroDec_den_pos p5).mp he
    rwa [toRat_zeroDec] at this
  · have := (qle_iff_toRat zeroDec ka zeroDec_den_pos p6).mp hf
    rwa [toRat_zeroDec] at this

theorem riskProp_of_ok (a : AssetInitEntry) (h : riskOk a = true) :
    riskProp a := by
  unfold riskOk at h
  unfold riskProp
  cases h1 : parseDec a.init_params.reserve_factor with
  | none => rw [h1] at h; simp at h
  | some rf =>
  cases h2 : parseDec a.init_params.liquidation_bonus with
  | none => rw [h1, h2] at h; simp at h
  | some lb =>
  rw [h1, h2] at h
  simp only [Bool.and_eq_true] at h
  obtain ⟨⟨ha, hb⟩, hc⟩ := h
  have p1 := parseDec_den_pos _ _ h1
  have p2 := parseDec_den_pos _ _ h2
  simp only [h1, h2]
  refine ⟨?_, ?_, ?_⟩
  · have := (qle_iff_toRat zeroDec rf zeroDec_den_pos p1).mp ha
    rwa [toRat_zeroDec] at this
  · have := (qlt_iff_toRat rf oneDec p1 oneDec_den_pos).mp hb
    rwa [toRat_oneDec] at this
  · have := (qle_iff_toRat zeroDec lb zeroDec_den_pos p2).mp hc
    rwa [toRat_zeroDec] at this

theorem rewardsProp_of_ok (c : Config) (h : rewardsOk c = true) :
    rewardsProp c := by
  unfold rewardsOk at h
  unfold rewardsProp
  cases h1 : parseDec c.protocolRewardsCollectorInitMsg.config.safety_fund_fee_share with
  | none => rw [h1] at h; simp at h
  | some s =>
  cases h2 : parseDec c.protocolRewardsCollectorInitMsg.config.treasury_fee_share with
  | none => rw [h1, h2] at h; simp at h
  | some t =>
  rw [h1, h2] at h
  simp only [Bool.and_eq_true] at h
  obtain ⟨⟨⟨⟨ha, hb⟩, hc⟩, hd⟩, he⟩ := h
  have p1 := parseDec_den_pos _ _ h1
  have p2 := parseDec_den_pos _ _ h2
  simp only [h1, h2]
  refine ⟨?_, ?_, ?_, ?_, ?_⟩
  · have := (qle_iff_toRat zeroDec s zeroDec_den_pos p1).mp ha
    rwa [toRat_zeroDec] at this
  · have := (qle_iff_toRat s oneDec p1 oneDec_den_pos).mp hb
    rwa [toRat_oneDec] at this
  · have := (qle_iff_toRat zeroDec t zeroDec_den_pos p2).mp hc
    rwa [toRat_zeroDec] at this
  · have := (qle_iff_toRat t oneDec p2 oneDec_den_pos).mp hd
    rwa [toRat_oneDec] at this
  · have := (qle_iff_toRat (addDec s t) oneDec (addDec_den_pos s t p1 p2)
      oneDec_den_pos).mp he
    rwa [toRat_oneDec, toRat_addDec s t p1 p2] at this

theorem councilProp_of_ok (c : Config) (h : councilOk c = true) :
    councilProp c := by
  unfold councilOk at h
  unfold councilProp
  simp only [Bool.and_eq_true, decide_eq_true_eq] at h
  obtain ⟨hlt, h⟩ := h
  refine ⟨hlt, ?_⟩
  cases h1 : parseDec c.councilInitMsg.config.proposal_required_quorum with
  | none => rw [h1] at h; simp at h
  | some q =>
  cases h2 : parseDec c.councilInitMsg.config.proposal_required_threshold with
  | none => rw [h1, h2] at h; simp at h
  | some t =>
  rw [h1, h2] at h
  simp only [Bool.and_eq_true] at h
  obtain ⟨⟨⟨ha, hb⟩, hc⟩, hd⟩ := h
  have p1 := parseDec_den_pos _ _ h1
  have p2 := parseDec_den_pos _ _ h2
  refine ⟨?_, ?_, ?_, ?_⟩
  · have := (qle_iff_toRat zeroDec q zeroDec_den_pos p1).mp ha
    rwa [toRat_zeroDec] at this
  · have := (qle_iff_toRat q oneDec p1 oneDec_den_pos).mp hb
    rwa [toRat_oneDec] at this
  · have := (qle_iff_toRat zeroDec t zeroDec_den_pos p2).mp hc
    rwa [toRat_zeroDec] at this
  · have := (qle_iff_toRat t oneDec p2 oneDec_den_pos).mp hd
    rwa [toRat_oneDec] at this

theorem getConfig_eq_testnet : getConfig "testnet" = Except.ok testnet := rfl

theorem getConfig_eq_bombay : getConfig "bombay" = Except.ok bombay := rfl

theorem getConfig_eq_local : getConfig "local" = Except.ok «local» := rfl

/-- C1: for every registered environment (testnet, bombay, local), every
AssetInitEntry in the Config returned by getConfig satisfies
max_loan_to_value < liquidation_threshold < 1, the decimal strings compared
as exact rationals. -/
theorem ltv_lt_liquidation_lt_one (e : String) (he : e ∈ registeredEnvs)
    (c : Config) (hc : getConfig e = Except.ok c) :
    ∀ a ∈ c.initialAssets, ltvProp a := by
  fin_cases he
  · rw [getConfig_eq_testnet] at hc
    injection hc with h
    subst h
    intro a ha
    exact ltvProp_of_ok a (List.all_eq_true.mp (by decide) a ha)
  · rw [getConfig_eq_bombay] at hc
    injection hc with h
    subst h
    intro a ha
    exact ltvProp_of_ok a (List.all_eq_true.mp (by decide) a ha)
  · rw [getConfig_eq_local] at hc
    injection hc with h
    subst h
    intro a ha
    exact ltvProp_of_ok a (List.all_eq_true.mp (by decide) a ha)

/-- Witness for C1: the claim instantiated at the testnet uusd entry. -/
theorem ltv_lt_liquidation_lt_one_witness :
    "testnet" ∈ registeredEnvs ∧ getConfig "testnet" = Except.ok testnet ∧
    testnetUusd ∈ testnet.initialAssets ∧ ltvProp testnetUusd :=
  ⟨by decide, rfl, List.mem_cons_self _ _,
   ltv_lt_liquidation_lt_one "testnet" (by decide) testnet rfl testnetUusd
     (List.mem_cons_self _ _)⟩

/-- C2: getConfig fails with UnknownEnvironment exactly when the identifier is
outside the registered set (testnet, bombay, local), and on each registered
identifier it returns the corresponding Config literal. -/
theorem getConfig_registered (e : String) :
    (getConfig e = Except.error ConfigError.UnknownEnvironment ↔
      e ∉ registeredEnvs) ∧
    (e = "testnet" → getConfig e = Except.ok testnet) ∧
    (e = "bombay" → getConfig e = Except.ok bombay) ∧
    (e = "local" → getConfig e = Except.ok «local») := by
  unfold getConfig registeredEnvs
  by_cases h1 : e = "testnet" <;> by_cases h2 : e = "bombay" <;>
    by_cases h3 : e = "local" <;> simp_all

/-- Witness for C2: an unregistered identifier fails with UnknownEnvironment. -/
theorem getConfig_registered_witness :
    getConfig "nonexistent" = Except.error ConfigError.UnknownEnvironment :=
  (getConfig_registered "nonexistent").1.mpr (by decide)

/-- C3: the testnet uusd entry has max_loan_to_value 0.75, liquidation
threshold 0.85 and liquidation bonus 0.1 (exact rationals 3/4, 17/20, 1/10);
validate accepts testnet, and after mutating that entry's
liquidation_threshold to 0.70 validate fails with a violation naming the
liquidation_threshold field path. -/
theorem testnet_uusd_validation_example :
    testnet.initialAssets.head? = some testnetUusd ∧
    testnetUusd.init_params.max_loan_to_value = "0.75" ∧
    testnetUusd.init_params.liquidation_threshold = "0.85" ∧
    testnetUusd.init_params.liquidation_bonus = "0.1" ∧
    (parseDec "0.75").map toRat = some ((3 : ℚ)/4) ∧
    (parseDec "0.85").map toRat = some ((17 : ℚ)/20) ∧
    (parseDec "0.1").map toRat = some ((1 : ℚ)/10) ∧
    validate testnet = [] ∧
    validate (mutateFirstLiqThreshold testnet "0.70") ≠ [] ∧
    (validate (mutateFirstLiqThreshold testnet "0.70")).any
      (fun v => v.1 = "initialAssets[0].init_params.liquidation_threshold") =
      true := by
  refine ⟨rfl, rfl, rfl, rfl, ?_, ?_, ?_, by decide, by decide, by decide⟩
  · rw [(by decide : parseDec "0.75" = some (75, 100))]
    simp only [Option.map]
    norm_num [toRat]
  · rw [(by decide : parseDec "0.85" = some (85, 100))]
    simp only [Option.map]
    norm_num [toRat]
  · rw [(by decide : parseDec "0.1" = some (1, 10))]
    simp only [Option.map]
    norm_num [toRat]

/-- C4: every InterestRateStrategy in any asset entry of any registered
environment satisfies min_borrow_rate ≤ max_borrow_rate,
optimal_utilization_rate strictly between 0 and 1, and nonnegative kp_1,
kp_2 and kp_augmentation_threshold. -/
theorem strategy_invariants (e : String) (he : e ∈ registeredEnvs)
    (c : Config) (hc : getConfig e = Except.ok c) :
    ∀ a ∈ c.initialAssets, strategyProp a.init_params.interest_rate_strategy := by
  fin_cases he
  · rw [getConfig_eq_testnet] at hc
    injection hc with h
    subst h
    intro a ha
    have hall : testnet.initialAssets.all
        (fun a => strategyOk a.init_params.interest_rate_strategy) = true := by
      decide
    exact strategyProp_of_ok _ (List.all_eq_true.mp hall a ha)
  · rw [getConfig_eq_bombay] at hc
    injection hc with h
    subst h
    intro a ha
    have hall : bombay.initialAssets.all
        (fun a => strategyOk a.init_params.interest_rate_strategy) = true := by
      decide
    exact strategyProp_of_ok _ (List.all_eq_true.mp hall a ha)
  · rw [getConfig_eq_local] at hc
    injection hc with h
    subst h
    intro a ha
    have hall : «local».initialAssets.all
        (fun a => strategyOk a.init_params.interest_rate_strategy) = true := by
      decide
    exact strategyProp_of_ok _ (List.all_eq_true.mp hall a ha)

/-- Witness for C4: the claim instantiated at the testnet uusd entry. -/
theorem strategy_invariants_witness :
    "testnet" ∈ registeredEnvs ∧ getConfig "testnet" = Except.ok testnet ∧
    testnetUusd ∈ testnet.initialAssets ∧
    strategyProp testnetUusd.init_params.interest_rate_strategy :=
  ⟨by decide, rfl, List.mem_cons_self _ _,
   strategy_invariants "testnet" (by decide) testnet rfl testnetUusd
     (List.mem_cons_self _ _)⟩

/-- C5: in every registered environment's rewards-collector parameters, both
fee shares lie in [0,1] and their sum is at most 1, as exact rationals. -/
theorem rewards_fee_share_invariants (c : Config) (hc : c ∈ registeredConfigs) :
    rewardsProp c := by
  fin_cases hc
  · exact rewardsProp_of_ok testnet (by decide)
  · exact rewardsProp_of_ok bombay (by decide)
  · exact rewardsProp_of_ok «local» (by decide)

/-- Witness for C5: the claim instantiated at the testnet config. -/
theorem rewards_fee_share_invariants_witness :
    testnet ∈ registeredConfigs ∧ rewardsProp testnet :=
  ⟨List.mem_cons_self _ _,
   rewards_fee_share_invariants testnet (List.mem_cons_self _ _)⟩

/-- C6: every AssetRiskParams in any asset entry of any registered environment
has reserve_factor in [0,1) and liquidation_bonus ≥ 0, as exact rationals. -/
theorem risk_invariants (e : String) (he : e ∈ registeredEnvs)
    (c : Config) (hc : getConfig e = Except.ok c) :
    ∀ a ∈ c.initialAssets, riskProp a := by
  fin_cases he
  · rw [getConfig_eq_testnet] at hc
    injection hc with h
    subst h
    intro a ha
    exact riskProp_of_ok a (List.all_eq_true.mp (by decide) a ha)
  · rw [getConfig_eq_bombay] at hc
    injection hc with h
    subst h
    intro a ha
    exact riskProp_of_ok a (List.all_eq_true.mp (by decide) a ha)
  · rw [getConfig_eq_local] at hc
    injection hc with h
    subst h
    intro a ha
    exact riskProp_of_ok a (List.all_eq_true.mp (by decide) a ha)

/-- Witness for C6: the claim instantiated at the testnet uusd entry. -/
theorem risk_invariants_witness :
    "testnet" ∈ registeredEnvs ∧ getConfig "testnet" = Except.ok testnet ∧
    testnetUusd ∈ testnet.initialAssets ∧ riskProp testnetUusd :=
  ⟨by decide, rfl, List.mem_cons_self _ _,
   risk_invariants "testnet" (by decide) testnet rfl testnetUusd
     (List.mem_cons_self _ _)⟩

/-- C7: in every registered environment's councilInitMsg,
proposal_effective_delay < proposal_expiration_period and the required quorum
and threshold lie in [0,1], as exact rationals. -/
theorem council_invariants (c : Config) (hc : c ∈ registeredConfigs) :
    councilProp c := by
  fin_cases hc
  · exact councilProp_of_ok testnet (by decide)
  · exact councilProp_of_ok bombay (by decide)
  · exact councilProp_of_ok «local» (by decide)

/-- Witness for C7: the claim instantiated at the testnet config. -/
theorem council_invariants_witness :
    testnet ∈ registeredConfigs ∧ councilProp testnet :=
  ⟨List.mem_cons_self _ _, council_invariants testnet (List.mem_cons_self _ _)⟩

/-- C8: getConfig is a pure function of its argument, so two calls with the
same environment identifier return value-equal results. -/
theorem getConfig_deterministic (e : String) (r₁ r₂ : Except ConfigError Config)
    (h₁ : getConfig e = r₁) (h₂ : getConfig e = r₂) : r₁ = r₂ :=
  h₁ ▸ h₂ ▸ rfl

/-- Witness for C8: two lookups of testnet agree. -/
theorem getConfig_deterministic_witness :
    getConfig "testnet" = Except.ok testnet ∧
    (Except.ok testnet : Except ConfigError Config) = Except.ok testnet :=
  ⟨rfl, getConfig_deterministic "testnet" (Except.ok testnet)
    (Except.ok testnet) rfl rfl⟩

/-- C9: in every registered environment's stakingInitMsg, cooldown_duration ≤
unstake_window holds in the data as given: 90 ≤ 300 on testnet and bombay and
10 ≤ 300 on local. -/
theorem staking_cooldown_le_unstake_window :
    (∀ c ∈ registeredConfigs,
      c.stakingInitMsg.config.cooldown_duration ≤
        c.stakingInitMsg.config.unstake_window) ∧
    testnet.stakingInitMsg.config.cooldown_duration = 90 ∧
    testnet.stakingInitMsg.config.unstake_window = 300 ∧
    bombay.stakingInitMsg.config.cooldown_duration = 90 ∧
    bombay.stakingInitMsg.config.unstake_window = 300 ∧
    «local».stakingInitMsg.config.cooldown_duration = 10 ∧
    «local».stakingInitMsg.config.unstake_window = 300 := by
  refine ⟨?_, rfl, rfl, rfl, rfl, rfl, rfl⟩
  intro c hc
  fin_cases hc <;> decide

/-- Witness for C9: the inner claim instantiated at the testnet config. -/
theorem staking_cooldown_le_unstake_window_witness :
    testnet ∈ registeredConfigs ∧
    testnet.stakingInitMsg.config.cooldown_duration ≤
      testnet.stakingInitMsg.config.unstake_window :=
  ⟨List.mem_cons_self _ _,
   staking_cooldown_le_unstake_window.1 testnet (List.mem_cons_self _ _)⟩

/-- C10: getConfig "local" returns the local Config, whose initialAssets list
is empty, so every per-asset invariant holds vacuously there. -/
theorem local_initial_assets_empty :
    getConfig "local" = Except.ok «local» ∧
    «local».initialAssets = [] ∧
    «local».initialAssets.all assetLtvOk = true ∧
    «local».initialAssets.all riskOk = true ∧
    «local».initialAssets.all
      (fun a => strategyOk a.init_params.interest_rate_strategy) = true :=
  ⟨rfl, rfl, rfl, rfl, rfl⟩

end DeployConfigs
